import Mathlib

/-!
# SEO Analyzer dashboard — verification of the derived-metrics layer

A shallow embedding of the two source files of the repository:

* `src/api.ts` — the API client (`analyzeSite`, `getSitemap`,
  `analyzeSpecificUrl`): each issues one fetch and, on a non-OK response,
  parses the body as JSON and throws `new Error(body.error || fallback)`.
* `src/app/page.tsx` — the `Home` component: request handlers
  (`startAnalysis`, `analyzeSitemapUrl`), the `getOverviewStats` helper and
  the inline derived-score expressions (content quality score, overall SEO
  score, keyword-density banding, radar link score).

JavaScript numbers are embedded as rationals (`ℚ`); wherever a division by
zero matters (the link score with `total_pages = 0`) a separate `JsNum`
type with `NaN`/`Infinity` is used so that the IEEE behaviour of the source
expression is preserved.  Optional / possibly-absent JSON fields are
`Option`s, and the JavaScript `||`-defaulting on falsy values (absent, `0`,
`""`) is modelled explicitly.
-/

namespace SeoAnalyzer

/-! ## Data model (the TS interfaces of `page.tsx`)

Only the fields the derived metrics read are carried.  A field the code
reads through optional chaining (`?.`) or guards with `||` is an `Option`.
-/

/-- Aggregate with a `mean` field, as in `word_count?: { mean: number }`. -/
structure MeanStat where
  mean : ℚ
deriving Repr, DecidableEq

/-- Aggregate with a `sum` field, as in `internal_links?: { sum: number }`. -/
structure SumStat where
  sum : ℚ
deriving Repr, DecidableEq

/-- The `interface NumericStats` of `page.tsx`. -/
structure NumericStats where
  word_count : Option MeanStat
  image_count : Option MeanStat
  internal_links : Option SumStat
  external_links : Option SumStat
deriving Repr, DecidableEq

/-- The `interface KeywordData` (the entries of `stats.common_keywords`);
the code reads only `relevance`, through `?.relevance || 0.5`. -/
structure KeywordData where
  name : String
  value : ℚ
  relevance : Option ℚ
deriving Repr, DecidableEq

/-- The `interface PageData`, restricted to the fields the derived scores
read (`h1_count` for the heading score). -/
structure PageData where
  page_link : String
  word_count : ℚ
  h1_count : ℕ
  image_count : ℚ
deriving Repr, DecidableEq

/-- The `interface Stats`: `numeric` is required by the TS type, while
`common_keywords` is optional. -/
structure Stats where
  numeric : NumericStats
  common_keywords : Option (List KeywordData)
deriving Repr, DecidableEq

/-- The `interface SiteData`: the analysis report.  `page_count` is optional
(the code reads `data.page_count || 0`) and so is `pages`. -/
structure SiteData where
  page_count : Option ℕ
  stats : Stats
  pages : Option (List PageData)
deriving Repr, DecidableEq

/-! ## `getOverviewStats` (`page.tsx` lines 251–267) -/

/-- The record returned by `getOverviewStats`. -/
structure OverviewStats where
  total_pages : ℕ
  avg_word_count : ℚ
  avg_image_count : ℚ
  total_links : ℚ
deriving Repr, DecidableEq

/-- Reads `data.page_count || 0` etc.: a missing value defaults to `0`; a present
`0` is falsy in JS and also yields `0`, which coincides with `getD 0`. -/
def getOverviewStats (data : Option SiteData) : OverviewStats :=
  match data with
  | none => { total_pages := 0, avg_word_count := 0, avg_image_count := 0, total_links := 0 }
  | some d =>
    { total_pages := d.page_count.getD 0
      avg_word_count := ((d.stats.numeric.word_count.map MeanStat.mean).getD 0)
      avg_image_count := ((d.stats.numeric.image_count.map MeanStat.mean).getD 0)
      total_links := ((d.stats.numeric.internal_links.map SumStat.sum).getD 0)
        + ((d.stats.numeric.external_links.map SumStat.sum).getD 0) }

/-! ## Keyword-density banding (`page.tsx` lines 1893–1908 and 1982–1998)

Both render sites use the same ternary chain
`density < 1 ? … : density < 2 ? … : density > 3.5 ? … : …`.
-/

/-- The four advice bands of the keyword-density ternary chain. -/
inductive DensityBand where
  | tooLow
  | belowOptimal
  | optimal
  | stuffingRisk
deriving Repr, DecidableEq

/-- The ternary chain classifying a page's keyword density, from the
keyword-density grid and the keywords-by-page table of `page.tsx`. -/
def classifyDensity (density : ℚ) : DensityBand :=
  if density < 1 then .tooLow
  else if density < 2 then .belowOptimal
  else if density > 7/2 then .stuffingRisk
  else .optimal

/-! ## Content quality score (`page.tsx` lines 1138–1146, repeated at
1249–1293)

The "Overall Score" entry of the content-quality radial bar is

```
Math.min(100,
  ((getOverviewStats().avg_word_count / 800) * 40) +
  (((data.pages?.reduce((sum, page) => sum + page.h1_count, 0) || 0)
      / (data.pages?.length || 1)) * 30) +
  ((getOverviewStats().avg_image_count / 4) * 30))
```

Only the final sum is passed through `Math.min(100, ·)`; the three weighted
components are not individually capped.
-/

/-- Computes `data.pages?.reduce((sum, page) => sum + page.h1_count, 0) || 0`. -/
def h1Sum (data : Option SiteData) : ℕ :=
  match data with
  | none => 0
  | some d =>
    match d.pages with
    | none => 0
    | some ps => ps.foldl (fun acc p => acc + p.h1_count) 0

/-- Computes `data.pages?.length || 1`: a missing page list, and an empty one
(length `0` is falsy), both give divisor `1`. -/
def pagesLenOr1 (data : Option SiteData) : ℕ :=
  match data with
  | none => 1
  | some d =>
    match d.pages with
    | none => 1
    | some ps => if ps.length = 0 then 1 else ps.length

/-- The per-page H1 average used by the headings component:
`(Σ h1_count || 0) / (pages.length || 1)`.  The divisor is never `0`, so
rational division is faithful to the JS division here. -/
def h1Average (data : Option SiteData) : ℚ :=
  (h1Sum data : ℚ) / (pagesLenOr1 data : ℚ)

/-- The content-quality "Overall Score" expression as a function of the
three aggregates it reads, exactly as in the source: the weighted
components are summed uncapped and only the sum is clamped by
`Math.min(100, ·)`. -/
def contentQualityOf (awc aic h1avg : ℚ) : ℚ :=
  min 100 ((awc / 800) * 40 + h1avg * 30 + (aic / 4) * 30)

/-- The content-quality "Overall Score" of a report. -/
def contentQualityScore (data : Option SiteData) : ℚ :=
  contentQualityOf (getOverviewStats data).avg_word_count
    (getOverviewStats data).avg_image_count (h1Average data)

/-! ## Overall SEO score (`page.tsx` lines 2107–2116)

```
(Math.min(100, (getOverviewStats().avg_word_count / 800) * 100) * 0.4) +
(Math.min(100, (data.stats.common_keywords?.[0]?.relevance || 0.5) * 100) * 0.3) +
(Math.min(100, (getOverviewStats().total_links /
                (getOverviewStats().total_pages * 10)) * 100) * 0.3)
```

(the render site wraps this in `Math.round` for display).
-/

/-- Reads `data.stats.common_keywords?.[0]?.relevance`: the first common
keyword's relevance, when the list is present and non-empty and the field
is present. -/
def topKeywordRelevance (data : Option SiteData) : Option ℚ :=
  match data with
  | none => none
  | some d =>
    match d.stats.common_keywords with
    | none => none
    | some [] => none
    | some (k :: _) => k.relevance

/-- Applies `x || 0.5` to the relevance: absent and `0` are both falsy in JS, so
both fall back to `0.5`. -/
def relOrHalf (o : Option ℚ) : ℚ :=
  match o with
  | none => 1/2
  | some r => if r = 0 then 1/2 else r

/-- The keyword component: `Math.min(100, (relevance || 0.5) * 100)`. -/
def keywordScoreOf (rel : Option ℚ) : ℚ :=
  min 100 (relOrHalf rel * 100)

/-- The overall-SEO-score expression as a function of the aggregates it
reads.  Rational division is used for the link ratio, so this definition
is faithful only when `pages > 0`; `linkScoreJs` below keeps the IEEE
behaviour at `pages = 0`. -/
def overallSeoOf (awc : ℚ) (rel : Option ℚ) (links : ℚ) (pages : ℚ) : ℚ :=
  min 100 ((awc / 800) * 100) * (4/10)
    + keywordScoreOf rel * (3/10)
    + min 100 ((links / (pages * 10)) * 100) * (3/10)

/-- The overall SEO score of a report (the value inside `Math.round`). -/
def overallSeoScore (data : Option SiteData) : ℚ :=
  overallSeoOf (getOverviewStats data).avg_word_count
    (topKeywordRelevance data)
    (getOverviewStats data).total_links
    ((getOverviewStats data).total_pages : ℚ)

/-! ## IEEE-faithful link score (`page.tsx` lines 861–865 and 2113–2114)

`Math.min(100, (total_links / (total_pages * 10)) * 100)` is computed on
JavaScript numbers, so `total_pages = 0` gives `0/0 = NaN` or `x/0 = ±∞`.
`JsNum` carries just enough of the IEEE semantics to evaluate that
expression.
-/

/-- A JavaScript number: a finite rational, an infinity, or `NaN`. -/
inductive JsNum where
  | fin (q : ℚ)
  | inf
  | negInf
  | nan
deriving Repr, DecidableEq

/-- IEEE division as JS performs it: `0/0 = NaN`, `x/0 = ±∞` for `x ≠ 0`,
`NaN` propagates. -/
def jsDiv : JsNum → JsNum → JsNum
  | .fin a, .fin b =>
    if b = 0 then
      if a = 0 then .nan else if a > 0 then .inf else .negInf
    else .fin (a / b)
  | .inf, .fin _ => .inf
  | .negInf, .fin _ => .negInf
  | .fin _, .inf => .fin 0
  | .fin _, .negInf => .fin 0
  | .inf, .inf => .nan
  | .inf, .negInf => .nan
  | .negInf, .inf => .nan
  | .negInf, .negInf => .nan
  | .nan, _ => .nan
  | _, .nan => .nan

/-- IEEE multiplication as JS performs it: `±∞ * 0 = NaN`, `NaN`
propagates. -/
def jsMul : JsNum → JsNum → JsNum
  | .fin a, .fin b => .fin (a * b)
  | .inf, .fin b => if b = 0 then .nan else if b > 0 then .inf else .negInf
  | .fin a, .inf => if a = 0 then .nan else if a > 0 then .inf else .negInf
  | .negInf, .fin b => if b = 0 then .nan else if b > 0 then .negInf else .inf
  | .fin a, .negInf => if a = 0 then .nan else if a > 0 then .negInf else .inf
  | .inf, .inf => .inf
  | .inf, .negInf => .negInf
  | .negInf, .inf => .negInf
  | .negInf, .negInf => .inf
  | .nan, _ => .nan
  | _, .nan => .nan

/-- JavaScript `Math.min`: returns `NaN` when either argument is `NaN`. -/
def jsMin : JsNum → JsNum → JsNum
  | .nan, _ => .nan
  | _, .nan => .nan
  | .fin a, .fin b => .fin (min a b)
  | .fin a, .inf => .fin a
  | .inf, .fin b => .fin b
  | .negInf, _ => .negInf
  | _, .negInf => .negInf
  | .inf, .inf => .inf

/-- The link score as JavaScript evaluates it:
`Math.min(100, (total_links / (total_pages * 10)) * 100)`. -/
def linkScoreJs (totalLinks totalPages : ℚ) : JsNum :=
  jsMin (.fin 100)
    (jsMul (jsDiv (.fin totalLinks) (jsMul (.fin totalPages) (.fin 10))) (.fin 100))

/-! ## API client (`src/api.ts`)

All three operations share the shape

```
const response = await fetch(…);
if (!response.ok) {
  const error = await response.json();
  throw new Error(error.error || '<fallback>');
}
return response.json();
```

`response.json()` is a parse of the body: on a body that is not valid JSON
it *rejects* with a `SyntaxError` (whose message is a runtime parse
diagnostic, not one of the hardcoded fallback strings), and that rejection
propagates out of the operation uncaught.
-/

/-- A JSON value, as delivered by `response.json()`. -/
inductive JsonValue where
  | null
  | bool (b : Bool)
  | num (q : ℚ)
  | str (s : String)
  | arr (xs : List JsonValue)
  | obj (fields : List (String × JsonValue))
deriving Repr

/-- An HTTP response as the client observes it: the `ok` flag and the
outcome of parsing the body as JSON (`Except` error = the body is not
valid JSON, carrying the runtime's parse diagnostic). -/
structure HttpResponse where
  ok : Bool
  body : Except String JsonValue
deriving Repr

/-- Property access `value.error`: a lookup on objects; absent on every
non-object here modelled as `none` (`undefined`). -/
def JsonValue.getField (j : JsonValue) (key : String) : Option JsonValue :=
  match j with
  | .obj fields => (fields.find? (fun f => f.1 = key)).map Prod.snd
  | _ => none

/-- JavaScript truthiness of a JSON value: `null`, `false`, `0` and `""`
are falsy, everything else is truthy. -/
def JsonValue.truthy : JsonValue → Bool
  | .null => false
  | .bool b => b
  | .num q => q ≠ 0
  | .str s => s ≠ ""
  | .arr _ => true
  | .obj _ => true

mutual

/-- Computes `String(v)` as `new Error(v)` applies it to the message argument.
(The number case abstracts JS's decimal formatting; every theorem below
applies it to strings only.) -/
def JsonValue.jsToString : JsonValue → String
  | .null => "null"
  | .bool b => if b then "true" else "false"
  | .num q => toString q
  | .str s => s
  | .arr xs => String.intercalate "," (JsonValue.jsToStringList xs)
  | .obj _ => "[object Object]"

/-- Elementwise `String(·)` over an array's entries. -/
def JsonValue.jsToStringList : List JsonValue → List String
  | [] => []
  | x :: xs => x.jsToString :: JsonValue.jsToStringList xs

end

/-- What an API operation can throw: `new Error(message)` from the
non-OK branch, or the propagated `SyntaxError` of a failed
`response.json()` (whose message is a parse diagnostic, never one of the
fallback strings). -/
inductive ThrownError where
  | message (s : String)
  | parseFailure (diagnostic : String)
deriving Repr, DecidableEq

/-- Computes `error.error || fallback` turned into an `Error` message: the field's
string value when present and truthy, the fallback otherwise. -/
def errorMessageOf (j : JsonValue) (fallback : String) : String :=
  match j.getField "error" with
  | some v => if v.truthy then v.jsToString else fallback
  | none => fallback

/-- The shared body of the three operations, parametrised by the
operation's hardcoded fallback string. -/
def apiCall (fallback : String) (resp : HttpResponse) : Except ThrownError JsonValue :=
  if resp.ok then
    match resp.body with
    | .ok j => .ok j
    | .error d => .error (.parseFailure d)
  else
    match resp.body with
    | .ok j => .error (.message (errorMessageOf j fallback))
    | .error d => .error (.parseFailure d)

/-- Function `analyzeSite` (`api.ts` lines 3–16), as a function of the response the
backend returns. -/
def analyzeSite (resp : HttpResponse) : Except ThrownError JsonValue :=
  apiCall "Failed to analyze website" resp

/-- Function `getSitemap` (`api.ts` lines 18–27). -/
def getSitemap (resp : HttpResponse) : Except ThrownError JsonValue :=
  apiCall "Failed to get sitemap" resp

/-- Function `analyzeSpecificUrl` (`api.ts` lines 29–42). -/
def analyzeSpecificUrl (resp : HttpResponse) : Except ThrownError JsonValue :=
  apiCall "Failed to analyze URL" resp

/-! ## Request handlers and view state (`page.tsx` lines 200–249)

The component state relevant to the handlers: `url`, `isAnalyzing`,
`error`, `data`.  A handler clears the error, sets the analyzing flag,
awaits the API call, stores the result or the error message, and resets
the flag in `finally`; the functions below give the state after the
handler completes, as a function of the awaited outcome.
-/

/-- The view state the request handlers touch. -/
structure AppState where
  url : String
  isAnalyzing : Bool
  error : String
  data : Option SiteData
deriving Repr, DecidableEq

/-- What a request can reject with, as seen by the `catch (err)` clause:
an `Error` instance carrying a message, or any other thrown value. -/
inductive Caught where
  | errorInstance (message : String)
  | nonError
deriving Repr, DecidableEq

/-- The `catch` clause of `startAnalysis` / `analyzeSitemapUrl`:
`err instanceof Error ? (err.message || default) : default`. -/
def caughtMessage (e : Caught) (defaultMsg : String) : String :=
  match e with
  | .errorInstance m => if m = "" then defaultMsg else m
  | .nonError => defaultMsg

/-- Handler `startAnalysis` (`page.tsx` lines 211–229): guard `if (!url) return`,
then clear the error, set the flag, await, and store result or message. -/
def startAnalysis (s : AppState) (outcome : Except Caught SiteData) : AppState :=
  if s.url = "" then s
  else
    match outcome with
    | .ok r => { s with error := "", isAnalyzing := false, data := some r }
    | .error e =>
      { s with error := caughtMessage e "An error occurred during analysis"
               isAnalyzing := false }

/-- Handler `analyzeSitemapUrl` (`page.tsx` lines 231–249): same shape, guarded on
its `urlToAnalyze` argument. -/
def analyzeSitemapUrl (s : AppState) (urlToAnalyze : String)
    (outcome : Except Caught SiteData) : AppState :=
  if urlToAnalyze = "" then s
  else
    match outcome with
    | .ok r => { s with error := "", isAnalyzing := false, data := some r }
    | .error e =>
      { s with error := caughtMessage e "An error occurred analyzing the URL"
               isAnalyzing := false }

/-! ## Trigger controls (`page.tsx` lines 442–456 and 2542–2550)

The main button carries `disabled={isAnalyzing || !url}`; the per-URL
"Analyze" button in the sitemap list carries no `disabled` attribute at
all.
-/

/-- The `disabled` attribute of the main "Analyze Single Page" button:
`isAnalyzing || !url`. -/
def mainAnalyzeDisabled (isAnalyzing : Bool) (url : String) : Bool :=
  isAnalyzing || url = ""

/-- The `disabled` attribute of a sitemap row's "Analyze" button: the attribute is
absent in the source, so the button is never disabled. -/
def sitemapAnalyzeDisabled (_isAnalyzing : Bool) : Bool :=
  false

/-! ## Claimed variants of the score formulas

For the refinement claims, the spec's version of a formula is written as a
separate definition following the spec's words, to be compared with the
definition taken from the source.
-/

/-- Claimed content quality score, per the spec's words: each of the three
component scores is individually capped at `100` before the weights
`0.40/0.30/0.30` are applied, and the final sum is clamped to `[0, 100]`. -/
def contentQualityClaimed (awc aic h1avg : ℚ) : ℚ :=
  max 0 (min 100
    ((4/10) * min 100 (awc / 800 * 100)
      + (3/10) * min 100 (h1avg * 100)
      + (3/10) * min 100 (aic / 4 * 100)))

/-- Claimed keyword score, per the spec's words: `min(100,
topKeywordRelevance·100)` with a default relevance of `0.5` when there are
no keywords (a missing relevance field on a present keyword is read as the
same default). -/
def keywordScoreClaimed (data : Option SiteData) : ℚ :=
  match data with
  | none => min 100 ((1/2) * 100)
  | some d =>
    match d.stats.common_keywords with
    | none => min 100 ((1/2) * 100)
    | some [] => min 100 ((1/2) * 100)
    | some (k :: _) => min 100 ((k.relevance.getD (1/2)) * 100)

/-- Claimed overall SEO score, per the spec's words: `0.4·contentScore +
0.3·keywordScore + 0.3·linkScore` where the content component is the full
content quality score defined above. -/
def overallSeoClaimed (data : Option SiteData) : ℚ :=
  (4/10) * contentQualityScore data
    + (3/10) * keywordScoreClaimed data
    + (3/10) * min 100 ((getOverviewStats data).total_links
        / (((getOverviewStats data).total_pages : ℚ) * 10) * 100)

/-! ## Shared helper lemmas -/

/-- The H1 average is a quotient of two non-negative naturals, the divisor
being at least `1`, so it is non-negative. -/
theorem h1Average_nonneg (data : Option SiteData) : 0 ≤ h1Average data := by
  unfold h1Average
  positivity

/-- The keyword component of the overall SEO score is non-negative
whenever the relevance, if present, is non-negative. -/
theorem keywordScoreOf_nonneg (rel : Option ℚ)
    (hr : ∀ r, rel = some r → 0 ≤ r) : 0 ≤ keywordScoreOf rel := by
  cases rel with
  | none => norm_num [keywordScoreOf, relOrHalf]
  | some r =>
    have h0 := hr r rfl
    simp only [keywordScoreOf, relOrHalf]
    split_ifs with h
    · norm_num
    · exact le_min (by norm_num) (by nlinarith)

/-! ## C1 — content quality score formula -/

/-- C1 counterexample: a one-page report whose page has four H1 headings
and no words or images.  The code's content quality score is `100` (the
uncapped heading component `4·30 = 120` alone saturates the final cap),
while the claimed formula — components individually capped at `100` before
the `0.40/0.30/0.30` weights — yields `30` at the same aggregates
(`avgWordCount = 0`, `avgImageCount = 0`, H1 average `= 4`).  So the score
does not equal the claimed weighted sum. -/
theorem contentQualityScore_cap_cex :
    contentQualityScore (some ⟨some 1, ⟨⟨none, none, none, none⟩, none⟩,
      some [⟨"p", 0, 4, 0⟩]⟩) = 100 ∧
    (getOverviewStats (some (⟨some 1, ⟨⟨none, none, none, none⟩, none⟩,
      some [⟨"p", 0, 4, 0⟩]⟩ : SiteData))).avg_word_count = 0 ∧
    (getOverviewStats (some (⟨some 1, ⟨⟨none, none, none, none⟩, none⟩,
      some [⟨"p", 0, 4, 0⟩]⟩ : SiteData))).avg_image_count = 0 ∧
    h1Average (some ⟨some 1, ⟨⟨none, none, none, none⟩, none⟩,
      some [⟨"p", 0, 4, 0⟩]⟩) = 4 ∧
    contentQualityClaimed 0 0 4 = 30 := by
  refine ⟨?_, ?_, ?_, ?_, ?_⟩ <;>
    norm_num [contentQualityScore, contentQualityOf, contentQualityClaimed,
      getOverviewStats, h1Average, h1Sum, pagesLenOr1]

/-- C1 (amended): the content quality score equals
`min(100, 0.40·(avgWordCount/800·100) + 0.30·(avgH1·100) +
0.30·(avgImageCount/4·100))` — the three weighted components are summed
uncapped and only the final sum is capped at `100` — and for non-negative
aggregates the result lies in `[0, 100]`. -/
theorem contentQualityScore_formula (data : Option SiteData)
    (hw : 0 ≤ (getOverviewStats data).avg_word_count)
    (hi : 0 ≤ (getOverviewStats data).avg_image_count) :
    contentQualityScore data =
      min 100 ((4/10) * ((getOverviewStats data).avg_word_count / 800 * 100)
        + (3/10) * (h1Average data * 100)
        + (3/10) * ((getOverviewStats data).avg_image_count / 4 * 100)) ∧
    0 ≤ contentQualityScore data ∧ contentQualityScore data ≤ 100 := by
  have hh := h1Average_nonneg data
  unfold contentQualityScore contentQualityOf
  refine ⟨by congr 1; ring, ?_, min_le_left _ _⟩
  have h1 : 0 ≤ (getOverviewStats data).avg_word_count / 800 * 40 := by positivity
  have h2 : 0 ≤ h1Average data * 30 := by positivity
  have h3 : 0 ≤ (getOverviewStats data).avg_image_count / 4 * 30 := by positivity
  exact le_min (by norm_num) (by linarith)

/-- Witness for C1 (amended), at the empty report. -/
theorem contentQualityScore_formula_witness :
    contentQualityScore none =
      min 100 ((4/10) * ((getOverviewStats none).avg_word_count / 800 * 100)
        + (3/10) * (h1Average none * 100)
        + (3/10) * ((getOverviewStats none).avg_image_count / 4 * 100)) ∧
    0 ≤ contentQualityScore none ∧ contentQualityScore none ≤ 100 :=
  contentQualityScore_formula none (by norm_num [getOverviewStats])
    (by norm_num [getOverviewStats])

/-! ## C2 — overall SEO score formula -/

/-- C2 counterexample: a one-page report with one H1, average image count
`4`, no words, no links and no keywords.  The full content quality score is
`60` (headings `30` + images `30`), so the claimed formula gives
`0.4·60 + 0.3·50 + 0.3·0 = 39`; the code's overall SEO score instead uses
only the word-count score (`min(100, avgWordCount/800·100) = 0`) as its
content component and gives `0 + 15 + 0 = 15`. -/
theorem overallSeoScore_content_cex :
    overallSeoScore (some ⟨some 1,
      ⟨⟨none, some ⟨4⟩, none, none⟩, none⟩, some [⟨"p", 0, 1, 4⟩]⟩) = 15 ∧
    contentQualityScore (some ⟨some 1,
      ⟨⟨none, some ⟨4⟩, none, none⟩, none⟩, some [⟨"p", 0, 1, 4⟩]⟩) = 60 ∧
    overallSeoClaimed (some ⟨some 1,
      ⟨⟨none, some ⟨4⟩, none, none⟩, none⟩, some [⟨"p", 0, 1, 4⟩]⟩) = 39 := by
  refine ⟨?_, ?_, ?_⟩ <;>
    norm_num [overallSeoScore, overallSeoOf, keywordScoreOf, relOrHalf,
      topKeywordRelevance, overallSeoClaimed, keywordScoreClaimed,
      contentQualityScore, contentQualityOf, getOverviewStats, h1Average,
      h1Sum, pagesLenOr1]

/-- C2 (amended): the overall SEO score equals `0.4·wordCountScore +
0.3·keywordScore + 0.3·linkScore`, where the content component is
`min(100, avgWordCount/800·100)` — the word-count score alone, not the
full content quality score — `keywordScore = min(100, r·100)` with `r` the
top keyword's relevance when present and non-zero and `0.5` otherwise, and
`linkScore = min(100, totalLinks/(totalPages·10)·100)`. -/
theorem overallSeoScore_formula (data : Option SiteData)
    (_hp : 0 < (getOverviewStats data).total_pages) :
    overallSeoScore data =
      (4/10) * min 100 ((getOverviewStats data).avg_word_count / 800 * 100)
        + (3/10) * min 100 (relOrHalf (topKeywordRelevance data) * 100)
        + (3/10) * min 100 ((getOverviewStats data).total_links
            / (((getOverviewStats data).total_pages : ℚ) * 10) * 100) := by
  unfold overallSeoScore overallSeoOf keywordScoreOf
  ring

/-- Witness for C2 (amended), at the one-page no-keyword report of the
counterexample. -/
theorem overallSeoScore_formula_witness :
    overallSeoScore (some ⟨some 1,
      ⟨⟨none, some ⟨4⟩, none, none⟩, none⟩, some [⟨"p", 0, 1, 4⟩]⟩) =
      (4/10) * min 100 ((getOverviewStats (some ⟨some 1,
          ⟨⟨none, some ⟨4⟩, none, none⟩, none⟩,
          some [⟨"p", 0, 1, 4⟩]⟩)).avg_word_count / 800 * 100)
        + (3/10) * min 100 (relOrHalf (topKeywordRelevance (some ⟨some 1,
            ⟨⟨none, some ⟨4⟩, none, none⟩, none⟩,
            some [⟨"p", 0, 1, 4⟩]⟩)) * 100)
        + (3/10) * min 100 ((getOverviewStats (some ⟨some 1,
            ⟨⟨none, some ⟨4⟩, none, none⟩, none⟩,
            some [⟨"p", 0, 1, 4⟩]⟩)).total_links
            / (((getOverviewStats (some ⟨some 1,
                ⟨⟨none, some ⟨4⟩, none, none⟩, none⟩,
                some [⟨"p", 0, 1, 4⟩]⟩)).total_pages : ℚ) * 10) * 100) :=
  overallSeoScore_formula _ (by simp [getOverviewStats])

/-! ## C3 — keyword-density bands -/

/-- C3: the density classification uses exactly the four bands
`d < 1` → too low, `1 ≤ d < 2` → below optimal, `2 ≤ d ≤ 3.5` → optimal,
`d > 3.5` → stuffing risk; the sample densities `0.5`, `1.5`, `2.5`, `4.0`
land in the expected bands, and the boundary values `1.0` and `3.5` fall
deterministically into below-optimal and optimal respectively. -/
theorem classifyDensity_bands (d : ℚ) :
    (classifyDensity d = .tooLow ↔ d < 1) ∧
    (classifyDensity d = .belowOptimal ↔ 1 ≤ d ∧ d < 2) ∧
    (classifyDensity d = .optimal ↔ 2 ≤ d ∧ d ≤ 7/2) ∧
    (classifyDensity d = .stuffingRisk ↔ 7/2 < d) ∧
    classifyDensity (1/2) = .tooLow ∧
    classifyDensity (3/2) = .belowOptimal ∧
    classifyDensity (5/2) = .optimal ∧
    classifyDensity 4 = .stuffingRisk ∧
    classifyDensity 1 = .belowOptimal ∧
    classifyDensity (7/2) = .optimal := by
  refine ⟨?_, ?_, ?_, ?_, by norm_num [classifyDensity],
    by norm_num [classifyDensity], by norm_num [classifyDensity],
    by norm_num [classifyDensity], by norm_num [classifyDensity],
    by norm_num [classifyDensity]⟩ <;>
    unfold classifyDensity <;>
    split_ifs with h1 h2 h3 <;>
    simp <;>
    first
      | linarith
      | (intro h; linarith)
      | exact ⟨by linarith, by linarith⟩

/-! ## C4 — division by zero in the link score -/

/-- C4: the link score `Math.min(100, (totalLinks/(totalPages·10))·100)`
is computed on IEEE numbers with no guard, so a report with
`totalPages = 0` and `totalLinks = 0` produces `0/0 = NaN`, which
propagates through `Math.min`; the rendered value is `NaN`, not a finite
clamped score (with `totalLinks = 5` the division gives `+∞` and the cap
happens to yield `100`). -/
theorem linkScoreJs_zero_pages :
    linkScoreJs 0 0 = JsNum.nan ∧ linkScoreJs 5 0 = JsNum.fin 100 := by
  norm_num [linkScoreJs, jsDiv, jsMul, jsMin]

/-! ## C5 — API error contract -/

/-- C5 counterexample: a non-OK response whose body is not valid JSON.
`response.json()` rejects before `new Error(error.error || fallback)` is
ever reached, so the operation propagates the parse failure — its message
is the runtime's parse diagnostic — and not the hardcoded fallback string
the claim promises for this case. -/
theorem analyzeSite_nonJson_cex :
    analyzeSite ⟨false, .error "Unexpected token < in JSON at position 0"⟩
      = .error (.parseFailure "Unexpected token < in JSON at position 0") ∧
    analyzeSite ⟨false, .error "Unexpected token < in JSON at position 0"⟩
      ≠ .error (.message "Failed to analyze website") := by
  constructor
  · rfl
  · simp [analyzeSite, apiCall]

/-- C5 (amended): on a non-2xx response each operation throws an error
whose message is the body's `error` field when the body parses as JSON and
the field is present (and a non-empty string), the operation's hardcoded
fallback string when the body parses as JSON without an `error` field, and
the propagated JSON parse failure — not the fallback — when the body is
not valid JSON. -/
theorem apiOps_error_contract (resp : HttpResponse) (hok : resp.ok = false) :
    (∀ j m, resp.body = .ok j → j.getField "error" = some (.str m) → m ≠ "" →
      analyzeSite resp = .error (.message m) ∧
      getSitemap resp = .error (.message m) ∧
      analyzeSpecificUrl resp = .error (.message m)) ∧
    (∀ j, resp.body = .ok j → j.getField "error" = none →
      analyzeSite resp = .error (.message "Failed to analyze website") ∧
      getSitemap resp = .error (.message "Failed to get sitemap") ∧
      analyzeSpecificUrl resp = .error (.message "Failed to analyze URL")) ∧
    (∀ e, resp.body = .error e →
      analyzeSite resp = .error (.parseFailure e) ∧
      getSitemap resp = .error (.parseFailure e) ∧
      analyzeSpecificUrl resp = .error (.parseFailure e)) := by
  refine ⟨?_, ?_, ?_⟩
  · intro j m hbody hfield hm
    have htr : JsonValue.truthy (.str m) = true := by
      simp [JsonValue.truthy, hm]
    refine ⟨?_, ?_, ?_⟩ <;>
      simp [analyzeSite, getSitemap, analyzeSpecificUrl, apiCall, hok, hbody,
        errorMessageOf, hfield, htr, JsonValue.jsToString]
  · intro j hbody hfield
    refine ⟨?_, ?_, ?_⟩ <;>
      simp [analyzeSite, getSitemap, analyzeSpecificUrl, apiCall, hok, hbody,
        errorMessageOf, hfield]
  · intro e hbody
    refine ⟨?_, ?_, ?_⟩ <;>
      simp [analyzeSite, getSitemap, analyzeSpecificUrl, apiCall, hok, hbody]

/-- Witness for C5 (amended): a `404`-style response with body
`{error: "Site unreachable"}` makes `analyzeSite` throw exactly
`"Site unreachable"`. -/
theorem apiOps_error_contract_witness :
    analyzeSite ⟨false, .ok (.obj [("error", .str "Site unreachable")])⟩
      = .error (.message "Site unreachable") :=
  ((apiOps_error_contract
      ⟨false, .ok (.obj [("error", .str "Site unreachable")])⟩ rfl).1
    (.obj [("error", .str "Site unreachable")]) "Site unreachable"
    rfl rfl (by simp)).1

/-! ## C6 — request handlers leave the report untouched on failure -/

/-- C6 counterexample: a request that rejects with an `Error` whose
message is empty.  The handler stores the hardcoded default
`"An error occurred during analysis"`, not the caught error's (empty)
message, so the error field is not always set to the caught message. -/
theorem startAnalysis_emptyMessage_cex :
    (startAnalysis
      ⟨"https://example.com", true, "",
        some ⟨some 1, ⟨⟨none, none, none, none⟩, none⟩, none⟩⟩
      (.error (.errorInstance ""))).error
      = "An error occurred during analysis" ∧
    "An error occurred during analysis" ≠ "" := by
  constructor
  · rfl
  · simp

/-- C6 (amended): for both handlers, a failed request leaves the stored
report exactly as it was and resets the analyzing flag, with the error
field set to the caught error's message when the thrown value is an
`Error` with a non-empty message (and to a hardcoded per-handler default
otherwise); a successful request replaces the report whole with the
response and leaves the error message empty. -/
theorem handlers_state_contract (s : AppState) (u m : String) (r : SiteData)
    (hs : s.url ≠ "") (hu : u ≠ "") (hm : m ≠ "") :
    startAnalysis s (.ok r)
      = { s with error := "", isAnalyzing := false, data := some r } ∧
    startAnalysis s (.error (.errorInstance m))
      = { s with error := m, isAnalyzing := false } ∧
    (startAnalysis s (.error (.errorInstance m))).data = s.data ∧
    analyzeSitemapUrl s u (.ok r)
      = { s with error := "", isAnalyzing := false, data := some r } ∧
    analyzeSitemapUrl s u (.error (.errorInstance m))
      = { s with error := m, isAnalyzing := false } ∧
    (analyzeSitemapUrl s u (.error (.errorInstance m))).data = s.data := by
  refine ⟨?_, ?_, ?_, ?_, ?_, ?_⟩ <;>
    simp [startAnalysis, analyzeSitemapUrl, caughtMessage, hs, hu, hm]

/-- Witness for C6 (amended), at a loaded state and the message
`"Site unreachable"`. -/
theorem handlers_state_contract_witness :
    startAnalysis
        ⟨"https://example.com", true, "",
          some ⟨some 1, ⟨⟨none, none, none, none⟩, none⟩, none⟩⟩
        (.ok ⟨some 2, ⟨⟨none, none, none, none⟩, none⟩, none⟩)
      = { url := "https://example.com", isAnalyzing := false, error := "",
          data := some ⟨some 2, ⟨⟨none, none, none, none⟩, none⟩, none⟩ } ∧
    startAnalysis
        ⟨"https://example.com", true, "",
          some ⟨some 1, ⟨⟨none, none, none, none⟩, none⟩, none⟩⟩
        (.error (.errorInstance "Site unreachable"))
      = { url := "https://example.com", isAnalyzing := false,
          error := "Site unreachable",
          data := some ⟨some 1, ⟨⟨none, none, none, none⟩, none⟩, none⟩ } ∧
    (startAnalysis
        ⟨"https://example.com", true, "",
          some ⟨some 1, ⟨⟨none, none, none, none⟩, none⟩, none⟩⟩
        (.error (.errorInstance "Site unreachable"))).data
      = some ⟨some 1, ⟨⟨none, none, none, none⟩, none⟩, none⟩ ∧
    analyzeSitemapUrl
        ⟨"https://example.com", true, "",
          some ⟨some 1, ⟨⟨none, none, none, none⟩, none⟩, none⟩⟩
        "https://example.com/a" (.ok ⟨some 2, ⟨⟨none, none, none, none⟩, none⟩, none⟩)
      = { url := "https://example.com", isAnalyzing := false, error := "",
          data := some ⟨some 2, ⟨⟨none, none, none, none⟩, none⟩, none⟩ } ∧
    analyzeSitemapUrl
        ⟨"https://example.com", true, "",
          some ⟨some 1, ⟨⟨none, none, none, none⟩, none⟩, none⟩⟩
        "https://example.com/a" (.error (.errorInstance "Site unreachable"))
      = { url := "https://example.com", isAnalyzing := false,
          error := "Site unreachable",
          data := some ⟨some 1, ⟨⟨none, none, none, none⟩, none⟩, none⟩ } ∧
    (analyzeSitemapUrl
        ⟨"https://example.com", true, "",
          some ⟨some 1, ⟨⟨none, none, none, none⟩, none⟩, none⟩⟩
        "https://example.com/a" (.error (.errorInstance "Site unreachable"))).data
      = some ⟨some 1, ⟨⟨none, none, none, none⟩, none⟩, none⟩ :=
  handlers_state_contract _ "https://example.com/a" "Site unreachable" _
    (by simp) (by simp) (by simp)

/-! ## C7 — overview statistics -/

/-- C7: field by field, `getOverviewStats` returns the report's
`page_count` (0 if absent), the `word_count` and `image_count` means
(0 if absent), and the sum of the `internal_links` and `external_links`
sums (each missing sum treated as 0); the spec's two example reports
evaluate to `(1, 450, 1, 5)` and to all zeros. -/
theorem getOverviewStats_spec (d : SiteData) (n : ℕ) (w i il el : ℚ) :
    (d.page_count = some n → (getOverviewStats (some d)).total_pages = n) ∧
    (d.page_count = none → (getOverviewStats (some d)).total_pages = 0) ∧
    (d.stats.numeric.word_count = some ⟨w⟩ →
      (getOverviewStats (some d)).avg_word_count = w) ∧
    (d.stats.numeric.word_count = none →
      (getOverviewStats (some d)).avg_word_count = 0) ∧
    (d.stats.numeric.image_count = some ⟨i⟩ →
      (getOverviewStats (some d)).avg_image_count = i) ∧
    (d.stats.numeric.image_count = none →
      (getOverviewStats (some d)).avg_image_count = 0) ∧
    (d.stats.numeric.internal_links = some ⟨il⟩ →
      d.stats.numeric.external_links = some ⟨el⟩ →
      (getOverviewStats (some d)).total_links = il + el) ∧
    (d.stats.numeric.internal_links = some ⟨il⟩ →
      d.stats.numeric.external_links = none →
      (getOverviewStats (some d)).total_links = il) ∧
    (d.stats.numeric.internal_links = none →
      d.stats.numeric.external_links = some ⟨el⟩ →
      (getOverviewStats (some d)).total_links = el) ∧
    (d.stats.numeric.internal_links = none →
      d.stats.numeric.external_links = none →
      (getOverviewStats (some d)).total_links = 0) ∧
    getOverviewStats (some ⟨some 1,
      ⟨⟨some ⟨450⟩, some ⟨1⟩, some ⟨3⟩, some ⟨2⟩⟩, none⟩, none⟩)
      = ⟨1, 450, 1, 5⟩ ∧
    getOverviewStats (some ⟨some 0, ⟨⟨none, none, none, none⟩, none⟩, none⟩)
      = ⟨0, 0, 0, 0⟩ := by
  refine ⟨fun h => ?_, fun h => ?_, fun h => ?_, fun h => ?_, fun h => ?_,
    fun h => ?_, fun h h' => ?_, fun h h' => ?_, fun h h' => ?_,
    fun h h' => ?_, ?_, ?_⟩ <;>
    (simp_all [getOverviewStats]; try norm_num)

/-- Witness for C7, at the spec's first example report. -/
theorem getOverviewStats_spec_witness :
    (getOverviewStats (some ⟨some 1,
      ⟨⟨some ⟨450⟩, some ⟨1⟩, some ⟨3⟩, some ⟨2⟩⟩, none⟩, none⟩)).total_pages = 1 ∧
    (getOverviewStats (some ⟨some 1,
      ⟨⟨some ⟨450⟩, some ⟨1⟩, some ⟨3⟩, some ⟨2⟩⟩, none⟩, none⟩)).avg_word_count = 450 ∧
    (getOverviewStats (some ⟨some 1,
      ⟨⟨some ⟨450⟩, some ⟨1⟩, some ⟨3⟩, some ⟨2⟩⟩, none⟩, none⟩)).avg_image_count = 1 ∧
    (getOverviewStats (some ⟨some 1,
      ⟨⟨some ⟨450⟩, some ⟨1⟩, some ⟨3⟩, some ⟨2⟩⟩, none⟩, none⟩)).total_links = 3 + 2 := by
  obtain ⟨h1, -, h3, -, h5, -, h7, -, -, -, -, -⟩ :=
    getOverviewStats_spec
      (⟨some 1, ⟨⟨some ⟨450⟩, some ⟨1⟩, some ⟨3⟩, some ⟨2⟩⟩, none⟩, none⟩ : SiteData)
      1 450 1 3 2
  exact ⟨h1 rfl, h3 rfl, h5 rfl, h7 rfl rfl⟩

/-! ## C8 — trigger controls while a request is in flight -/

/-- C8 counterexample: while `isAnalyzing` is `true` the main analyze
button is disabled, but a sitemap row's "Analyze" button carries no
`disabled` attribute at all, so it is not disabled — a second request can
be started from the sitemap tab while one is in flight, refuting the claim
that every trigger control is disabled while analyzing. -/
theorem sitemap_trigger_enabled_cex :
    mainAnalyzeDisabled true "https://example.com" = true ∧
    sitemapAnalyzeDisabled true = false := by
  constructor <;> rfl

/-- C8 (amended): only the main analyze button is disabled while a request
is in flight; the per-URL "Analyze" buttons of the sitemap tab are never
disabled, so the UI does not prevent starting a second request while
`isAnalyzing` is `true`. -/
theorem trigger_disabling (u : String) (b : Bool) :
    mainAnalyzeDisabled true u = true ∧ sitemapAnalyzeDisabled b = false := by
  constructor <;> simp [mainAnalyzeDisabled, sitemapAnalyzeDisabled]

/-! ## C9 — monotonicity and range of the two scores -/

/-- C9: holding the other aggregates fixed, the content quality score is
monotonically non-decreasing in the average word count and the average
image count (it does not read the link total), the overall SEO score is
monotonically non-decreasing in the average word count and the link total
(it does not read the image average), and for non-negative aggregates with
a positive page count both scores lie in `[0, 100]`. -/
theorem scores_monotone_bounded
    (awc awc' aic aic' h1 links links' pages : ℚ) (rel : Option ℚ)
    (hw0 : 0 ≤ awc) (hww : awc ≤ awc') (hi0 : 0 ≤ aic) (hii : aic ≤ aic')
    (hh0 : 0 ≤ h1) (hl0 : 0 ≤ links) (hll : links ≤ links') (hp : 0 < pages)
    (hr : ∀ r, rel = some r → 0 ≤ r) :
    contentQualityOf awc aic h1 ≤ contentQualityOf awc' aic h1 ∧
    contentQualityOf awc aic h1 ≤ contentQualityOf awc aic' h1 ∧
    0 ≤ contentQualityOf awc aic h1 ∧ contentQualityOf awc aic h1 ≤ 100 ∧
    overallSeoOf awc rel links pages ≤ overallSeoOf awc' rel links pages ∧
    overallSeoOf awc rel links pages ≤ overallSeoOf awc rel links' pages ∧
    0 ≤ overallSeoOf awc rel links pages ∧
    overallSeoOf awc rel links pages ≤ 100 := by
  have hkw0 : 0 ≤ keywordScoreOf rel := keywordScoreOf_nonneg rel hr
  have hkw100 : keywordScoreOf rel ≤ 100 := min_le_left _ _
  refine ⟨?_, ?_, ?_, min_le_left _ _, ?_, ?_, ?_, ?_⟩
  · exact min_le_min le_rfl (by gcongr)
  · exact min_le_min le_rfl (by gcongr)
  · exact le_min (by norm_num) (by positivity)
  · unfold overallSeoOf
    gcongr
  · unfold overallSeoOf
    gcongr
  · unfold overallSeoOf
    have t1 : (0:ℚ) ≤ min 100 (awc / 800 * 100) * (4/10) :=
      mul_nonneg (le_min (by norm_num) (by positivity)) (by norm_num)
    have t2 : (0:ℚ) ≤ keywordScoreOf rel * (3/10) :=
      mul_nonneg hkw0 (by norm_num)
    have t3 : (0:ℚ) ≤ min 100 (links / (pages * 10) * 100) * (3/10) :=
      mul_nonneg (le_min (by norm_num) (by positivity)) (by norm_num)
    linarith
  · unfold overallSeoOf
    have t1 : min 100 (awc / 800 * 100) * (4/10) ≤ 100 * (4/10) :=
      mul_le_mul_of_nonneg_right (min_le_left _ _) (by norm_num)
    have t2 : keywordScoreOf rel * (3/10) ≤ 100 * (3/10) :=
      mul_le_mul_of_nonneg_right hkw100 (by norm_num)
    have t3 : min 100 (links / (pages * 10) * 100) * (3/10) ≤ 100 * (3/10) :=
      mul_le_mul_of_nonneg_right (min_le_left _ _) (by norm_num)
    linarith

/-- Witness for C9, at the aggregates `0 ≤ 1` for words, images and links,
one page, and no keyword list. -/
theorem scores_monotone_bounded_witness :
    contentQualityOf 0 0 0 ≤ contentQualityOf 1 0 0 ∧
    contentQualityOf 0 0 0 ≤ contentQualityOf 0 1 0 ∧
    0 ≤ contentQualityOf 0 0 0 ∧ contentQualityOf 0 0 0 ≤ 100 ∧
    overallSeoOf 0 none 0 1 ≤ overallSeoOf 1 none 0 1 ∧
    overallSeoOf 0 none 0 1 ≤ overallSeoOf 0 none 1 1 ∧
    0 ≤ overallSeoOf 0 none 0 1 ∧
    overallSeoOf 0 none 0 1 ≤ 100 :=
  scores_monotone_bounded 0 1 0 1 0 0 1 1 none (by norm_num) (by norm_num)
    (by norm_num) (by norm_num) (by norm_num) (by norm_num) (by norm_num)
    (by norm_num) (fun r h => Option.noConfusion h)

/-! ## C10 — falsy relevance defaults to 0.5 -/

/-- C10: when the common-keyword list is non-empty but its first entry has
relevance `0` or no relevance field, the `|| 0.5` default applies (both
values are falsy), so the keyword component of the overall SEO score is
`min(100, 0.5·100) = 50`; a top relevance of exactly `0` is never
reflected in the score. -/
theorem keywordScore_falsy_default (d : SiteData) (k : KeywordData)
    (rest : List KeywordData)
    (hk : d.stats.common_keywords = some (k :: rest))
    (hr : k.relevance = none ∨ k.relevance = some 0) :
    relOrHalf (topKeywordRelevance (some d)) = 1/2 ∧
    keywordScoreOf (topKeywordRelevance (some d)) = 50 := by
  have ht : topKeywordRelevance (some d) = k.relevance := by
    simp [topKeywordRelevance, hk]
  rcases hr with h | h <;> rw [ht, h] <;>
    constructor <;> norm_num [relOrHalf, keywordScoreOf]

/-- Witness for C10, at a report whose single common keyword has
relevance exactly `0`. -/
theorem keywordScore_falsy_default_witness :
    relOrHalf (topKeywordRelevance (some ⟨some 1,
      ⟨⟨none, none, none, none⟩, some [⟨"seo", 10, some 0⟩]⟩, none⟩)) = 1/2 ∧
    keywordScoreOf (topKeywordRelevance (some ⟨some 1,
      ⟨⟨none, none, none, none⟩, some [⟨"seo", 10, some 0⟩]⟩, none⟩)) = 50 :=
  keywordScore_falsy_default _ ⟨"seo", 10, some 0⟩ [] rfl (Or.inr rfl)

end SeoAnalyzer
